import Mathlib

/-!
Shallow embedding of `src/calorie_calculator.py`.

The program computes Basal Metabolic Rate (BMR) via the Mifflin-St Jeor
formula and Total Daily Energy Expenditure (TDEE) by scaling the BMR with an
activity multiplier looked up in the insertion-ordered dict
`ACTIVITY_FACTORS`.

Modelling decisions:
* Python floats are modelled as `ℚ`; every constant appearing in the source
  (`6.25`, `1.2`, `1.375`, `1.55`, `1.725`, `1.9`) and every intermediate
  value in the documented scenarios is an exact decimal, so rational
  arithmetic mirrors the source formulas.
* `raise ValueError(msg)` is modelled as `Except.error msg`; a normal return
  is `Except.ok`.
* The dict `ACTIVITY_FACTORS` is modelled as an association list, which keeps
  Python's insertion order (relevant for the error message of
  `calculate_tdee`).
* `str.lower()` is modelled by mapping `Char.toLower` over the characters
  (ASCII case mapping, which covers every string the program compares
  against); `str.replace(" ", "_")` with a one-character pattern is a
  character map.
* The dict is global state that `calculate_tdee` reads; the embedding makes
  that explicit: `calculate_tdee_st` threads the table through the call and
  `calculate_tdee` runs it on the global `ACTIVITY_FACTORS`.
-/

namespace CalorieCalculator

/-- Python `gender.lower()` / `activity_level.lower()`: lowercase every
character of the string. -/
def pyLower (s : String) : String := ⟨s.data.map Char.toLower⟩

/-- Python `activity_level.replace(" ", "_")`: with a one-character pattern,
`str.replace` substitutes each space by an underscore. -/
def pyReplaceSpaceUnderscore (s : String) : String :=
  ⟨s.data.map (fun c => if c = ' ' then '_' else c)⟩

/-- The module-level dict `ACTIVITY_FACTORS`, in its fixed insertion order:
sedentary, lightly_active, moderately_active, very_active, super_active. -/
def ACTIVITY_FACTORS : List (String × ℚ) :=
  [("sedentary", 1.2),
   ("lightly_active", 1.375),
   ("moderately_active", 1.55),
   ("very_active", 1.725),
   ("super_active", 1.9)]

/-- `calculate_bmr(weight_kg, height_cm, age, gender)` from the source:
reject a gender whose lowercase form is neither male nor female, otherwise
compute `10*W + 6.25*H - 5*A` and add 5 (male) or subtract 161 (female). -/
def calculate_bmr (weight_kg height_cm : ℚ) (age : ℤ) (gender : String) :
    Except String ℚ :=
  if (pyLower gender) ∉ (["male", "female"] : List String) then
    Except.error ("Gender must be 'male' or 'female'.")
  else
    let base_bmr := (10 * weight_kg) + (6.25 * height_cm) - (5 * (age : ℚ))
    if pyLower gender = "male" then
      Except.ok (base_bmr + 5)
    else
      Except.ok (base_bmr - 161)

/-- The normalization `calculate_tdee` applies to its `activity_level`
argument: `activity_level.lower().replace(" ", "_")`. -/
def normalized_activity (s : String) : String :=
  pyReplaceSpaceUnderscore (pyLower s)

/-- The f-string message of `calculate_tdee`:
`f"Invalid activity level. Choose from: \x7b', '.join(ACTIVITY_FACTORS.keys())\x7d"`,
joining the table's keys in their insertion order. -/
def tdee_error_message (table : List (String × ℚ)) : String :=
  "Invalid activity level. Choose from: " ++
    String.intercalate (", ") (table.map Prod.fst)

/-- `calculate_tdee(bmr, activity_level)` with the dict passed as explicit
state: the function only reads the table (membership test, key lookup, error
message) and returns it unchanged. -/
def calculate_tdee_st (table : List (String × ℚ)) (bmr : ℚ)
    (activity_level : String) : Except String ℚ × List (String × ℚ) :=
  let key := normalized_activity activity_level
  match table.find? (fun p => p.1 == key) with
  | none => (Except.error (tdee_error_message table), table)
  | some p => (Except.ok (bmr * p.2), table)

/-- `calculate_tdee(bmr, activity_level)` from the source: the stateful
version run on the global `ACTIVITY_FACTORS`. -/
def calculate_tdee (bmr : ℚ) (activity_level : String) : Except String ℚ :=
  (calculate_tdee_st ACTIVITY_FACTORS bmr activity_level).1

/-- The `__main__` demonstration block, step 1: BMR for the hard-coded
profile weight 53 kg, height 165 cm, age 20, gender male. -/
def main_bmr : Except String ℚ := calculate_bmr 53 165 20 "male"

/-- The `__main__` demonstration block, step 2: TDEE of that BMR with
activity level lightly_active. -/
def main_tdee : Except String ℚ :=
  main_bmr.bind (fun b => calculate_tdee b "lightly_active")

/-- The TDEE figure the demonstration block displays:
`math.ceil(tdee_result)`, the least integer at or above the TDEE. -/
def main_tdee_display : Except String ℤ :=
  main_tdee.map (fun t => ⌈t⌉)

/-- `Char.ofNat` returns a character with the requested code point whenever
that code point is valid. -/
lemma toNat_ofNat_valid (n : Nat) (h : n.isValidChar) :
    (Char.ofNat n).toNat = n := by
  simp [Char.ofNat, h, Char.ofNatAux, Char.toNat]
  rfl

/-- ASCII lowercasing is idempotent on characters: lowering lands outside
the uppercase range, so a second pass changes nothing. -/
lemma toLower_idem (c : Char) : c.toLower.toLower = c.toLower := by
  unfold Char.toLower
  by_cases h : c.toNat ≥ 65 ∧ c.toNat ≤ 90
  · rw [if_pos h]
    have hv : (c.toNat + 32).isValidChar := by
      left
      omega
    rw [toNat_ofNat_valid _ hv, if_neg (by omega)]
  · rw [if_neg h, if_neg h]

/-- `pyLower` is idempotent. -/
lemma pyLower_idem (s : String) : pyLower (pyLower s) = pyLower s := by
  simp [pyLower, List.map_map, Function.comp_def, toLower_idem]

/-- On a valid gender, `calculate_bmr` returns the Mifflin-St Jeor value. -/
lemma bmr_valid_eq (w h : ℚ) (a : ℤ) (g : String)
    (hg : pyLower g = "male" ∨ pyLower g = "female") :
    calculate_bmr w h a g =
      Except.ok ((10 * w) + (6.25 * h) - (5 * (a : ℚ)) +
        (if pyLower g = "male" then 5 else -161)) := by
  rcases hg with hg | hg
  · simp [calculate_bmr, hg]
  · simp [calculate_bmr, hg]
    ring

/-- Claim C1: for every weight, height, age, and a gender string whose
lowercase form is male or female, `calculate_bmr` returns
`10*weight + 6.25*height - 5*age`, plus 5 when the normalized gender is male
and minus 161 when it is female. -/
theorem claim_C1 (w h : ℚ) (a : ℤ) (g : String)
    (hg : pyLower g = "male" ∨ pyLower g = "female") :
    calculate_bmr w h a g =
      Except.ok ((10 * w) + (6.25 * h) - (5 * (a : ℚ)) +
        (if pyLower g = "male" then 5 else -161)) :=
  bmr_valid_eq w h a g hg

/-- Witness for C1 at weight 70, height 170, age 30, gender female. -/
theorem claim_C1_witness :
    calculate_bmr 70 170 30 "female" =
      Except.ok ((10 * 70) + (6.25 * 170) - (5 * ((30 : ℤ) : ℚ)) +
        (if pyLower "female" = "male" then 5 else -161)) :=
  claim_C1 70 170 30 "female" (Or.inr (by decide))

/-- Claim C3: `calculate_bmr` fails with the InvalidInput error exactly when
the lowercase form of the gender is neither male nor female, and a failing
call produces no numeric result. -/
theorem claim_C3 (w h : ℚ) (a : ℤ) (g : String) :
    ((∃ msg, calculate_bmr w h a g = Except.error msg) ↔
      ¬ (pyLower g = "male" ∨ pyLower g = "female")) ∧
    (∀ msg, calculate_bmr w h a g = Except.error msg →
      ∀ v : ℚ, calculate_bmr w h a g ≠ Except.ok v) := by
  constructor
  · by_cases hg : pyLower g = "male" ∨ pyLower g = "female"
    · rw [bmr_valid_eq w h a g hg]
      simp [hg]
    · have hmem : (pyLower g) ∉ (["male", "female"] : List String) := by
        simpa using hg
      simp [calculate_bmr, hmem, hg]
  · intro msg hmsg v hv
    rw [hmsg] at hv
    exact Except.noConfusion hv

/-- Claim C5: `calculate_bmr` is case-insensitive on gender: the result on
any gender string equals the result on its lowercase form. -/
theorem claim_C5 (w h : ℚ) (a : ℤ) (g : String) :
    calculate_bmr w h a g = calculate_bmr w h a (pyLower g) := by
  simp [calculate_bmr, pyLower_idem]

/-- Claim C7: `calculate_bmr` performs no bounds checking on weight, height,
or age: for any values of those, a valid gender yields a numeric result. -/
theorem claim_C7 (w h : ℚ) (a : ℤ) (g : String)
    (hg : pyLower g = "male" ∨ pyLower g = "female") :
    ∃ v, calculate_bmr w h a g = Except.ok v :=
  ⟨_, bmr_valid_eq w h a g hg⟩

/-- Witness for C7 at a negative weight, zero height, and negative age. -/
theorem claim_C7_witness :
    ∃ v, calculate_bmr (-1) 0 (-5) "MALE" = Except.ok v :=
  claim_C7 (-1) 0 (-5) "MALE" (Or.inl (by decide))

/-- One pass of the per-character activity normalization (lowercase, then
space to underscore) absorbs a second pass. -/
lemma norm_char_idem (c : Char) :
    (if Char.toLower (if Char.toLower c = ' ' then '_' else Char.toLower c) = ' '
      then '_'
      else Char.toLower (if Char.toLower c = ' ' then '_' else Char.toLower c)) =
    (if Char.toLower c = ' ' then '_' else Char.toLower c) := by
  by_cases h : Char.toLower c = ' '
  · rw [if_pos h]
    decide
  · rw [if_neg h, toLower_idem, if_neg h]

/-- `normalized_activity` is idempotent. -/
lemma normalized_activity_idem (s : String) :
    normalized_activity (normalized_activity s) = normalized_activity s := by
  simp only [normalized_activity, pyReplaceSpaceUnderscore, pyLower,
    List.map_map, Function.comp_def, norm_char_idem]

/-- When the normalized activity level is a key of the table,
`calculate_tdee` multiplies the BMR by that key's factor. -/
lemma tdee_lookup_eq (b : ℚ) (s : String) (k : String) (f : ℚ)
    (hk : (k, f) ∈ ACTIVITY_FACTORS) (hs : normalized_activity s = k) :
    calculate_tdee b s = Except.ok (b * f) := by
  subst hs
  simp only [ACTIVITY_FACTORS, List.mem_cons, List.not_mem_nil, or_false,
    Prod.mk.injEq] at hk
  rcases hk with ⟨h1, h2⟩ | ⟨h1, h2⟩ | ⟨h1, h2⟩ | ⟨h1, h2⟩ | ⟨h1, h2⟩ <;>
    simp [calculate_tdee, calculate_tdee_st, ACTIVITY_FACTORS, h1, h2,
      List.find?]

/-- Claim C2: for every bmr and every activity_level string that normalizes
to one of the five keys, `calculate_tdee` returns bmr multiplied by the
corresponding factor 1.2, 1.375, 1.55, 1.725 or 1.9. -/
theorem claim_C2 (b : ℚ) (s : String) (k : String) (f : ℚ)
    (hk : (k, f) ∈ ACTIVITY_FACTORS) (hs : normalized_activity s = k) :
    calculate_tdee b s = Except.ok (b * f) :=
  tdee_lookup_eq b s k f hk hs

/-- Witness for C2 at bmr 1466.25 and activity level Lightly Active. -/
theorem claim_C2_witness :
    calculate_tdee 1466.25 "Lightly Active" = Except.ok (1466.25 * 1.375) :=
  claim_C2 1466.25 "Lightly Active" ("lightly_active") 1.375
    (by simp [ACTIVITY_FACTORS]) (by decide)

/-- Claim C4: for every bmr and every activity_level whose normalized form
is not a key of the table, `calculate_tdee` fails with the InvalidInput
error whose message lists the keys in the table's insertion order. -/
theorem claim_C4 (b : ℚ) (s : String)
    (hs : normalized_activity s ∉ ACTIVITY_FACTORS.map Prod.fst) :
    calculate_tdee b s = Except.error
      ("Invalid activity level. Choose from: sedentary, lightly_active, moderately_active, very_active, super_active") := by
  have hfind :
      ACTIVITY_FACTORS.find? (fun p => p.1 == normalized_activity s) = none := by
    rw [List.find?_eq_none]
    intro p hp
    simp only [beq_iff_eq]
    intro hq
    exact hs (hq ▸ List.mem_map_of_mem Prod.fst hp)
  simp only [calculate_tdee, calculate_tdee_st, hfind]
  rfl

/-- Witness for C4 at the unrecognized activity level extreme. -/
theorem claim_C4_witness :
    calculate_tdee 1 "extreme" = Except.error
      ("Invalid activity level. Choose from: sedentary, lightly_active, moderately_active, very_active, super_active") :=
  claim_C4 1 "extreme" (by decide)

/-- Claim C6: `calculate_tdee` normalizes its activity_level by lowercasing
and replacing spaces with underscores: the result on any string equals the
result on its normalized form. -/
theorem claim_C6 (b : ℚ) (s : String) :
    calculate_tdee b s = calculate_tdee b (normalized_activity s) := by
  simp [calculate_tdee, calculate_tdee_st, normalized_activity_idem]

/-- Claim C8: both functions are deterministic and free of hidden state:
`calculate_tdee` leaves any table state unchanged, and repeated calls with
identical inputs return identical results. -/
theorem claim_C8 (w h : ℚ) (a : ℤ) (g : String) (b : ℚ) (s : String)
    (table : List (String × ℚ)) :
    (calculate_tdee_st table b s).2 = table ∧
    calculate_bmr w h a g = calculate_bmr w h a g ∧
    calculate_tdee b s = calculate_tdee b s := by
  refine ⟨?_, rfl, rfl⟩
  rcases hfind : table.find? (fun p => p.1 == normalized_activity s) with _ | p <;>
    simp [calculate_tdee_st, hfind]

/-- Claim C9: on weight 53, height 165, age 20, gender male, the BMR is
exactly 1466.25; the TDEE of that BMR with lightly_active is exactly
2016.09375, and the demonstration entry point displays it rounded up
to 2017. -/
theorem claim_C9 :
    calculate_bmr 53 165 20 "male" = Except.ok 1466.25 ∧
    calculate_tdee 1466.25 "lightly_active" = Except.ok 2016.09375 ∧
    main_tdee_display = Except.ok 2017 := by
  have hb : calculate_bmr 53 165 20 "male" = Except.ok 1466.25 := by
    rw [bmr_valid_eq 53 165 20 "male" (Or.inl (by decide))]
    norm_num [show pyLower "male" = "male" from by decide]
  have ht : calculate_tdee 1466.25 "lightly_active" = Except.ok 2016.09375 := by
    rw [tdee_lookup_eq 1466.25 "lightly_active" ("lightly_active") 1.375
      (by simp [ACTIVITY_FACTORS]) (by decide)]
    norm_num
  refine ⟨hb, ht, ?_⟩
  have h1 : main_tdee = Except.ok (2016.09375 : ℚ) := by
    simp [main_tdee, main_bmr, hb, ht, Except.bind]
  have h2 : (⌈(2016.09375 : ℚ)⌉ : ℤ) = 2017 := by
    rw [Int.ceil_eq_iff]
    norm_num
  simp [main_tdee_display, h1, h2, Except.map]

/-- Claim C10: for every bmr at least 0 and every activity level whose
normalized form is a key of the table, the TDEE is at least the bmr, since
every factor in the table is at least 1.2. -/
theorem claim_C10 (b : ℚ) (s : String) (hb : 0 ≤ b)
    (hs : normalized_activity s ∈ ACTIVITY_FACTORS.map Prod.fst) :
    ∃ v, calculate_tdee b s = Except.ok v ∧ b ≤ v := by
  simp only [ACTIVITY_FACTORS, List.map_cons, List.map_nil, List.mem_cons,
    List.not_mem_nil, or_false] at hs
  rcases hs with h | h | h | h | h
  · exact ⟨b * 1.2, tdee_lookup_eq b s ("sedentary") 1.2 (by simp [ACTIVITY_FACTORS]) h,
      le_mul_of_one_le_right hb (by norm_num)⟩
  · exact ⟨b * 1.375, tdee_lookup_eq b s ("lightly_active") 1.375 (by simp [ACTIVITY_FACTORS]) h,
      le_mul_of_one_le_right hb (by norm_num)⟩
  · exact ⟨b * 1.55, tdee_lookup_eq b s ("moderately_active") 1.55 (by simp [ACTIVITY_FACTORS]) h,
      le_mul_of_one_le_right hb (by norm_num)⟩
  · exact ⟨b * 1.725, tdee_lookup_eq b s ("very_active") 1.725 (by simp [ACTIVITY_FACTORS]) h,
      le_mul_of_one_le_right hb (by norm_num)⟩
  · exact ⟨b * 1.9, tdee_lookup_eq b s ("super_active") 1.9 (by simp [ACTIVITY_FACTORS]) h,
      le_mul_of_one_le_right hb (by norm_num)⟩

/-- Witness for C10 at bmr 1466.25 and activity level sedentary. -/
theorem claim_C10_witness :
    ∃ v, calculate_tdee 1466.25 "sedentary" = Except.ok v ∧ (1466.25 : ℚ) ≤ v :=
  claim_C10 1466.25 "sedentary" (by norm_num) (by decide)

end CalorieCalculator
